import Mathlib

/-!
Verification development for the `espn_tables` repository
(`src/espn_tables/espn_tables.py`).

The file gives a shallow embedding of the table-normalization layer:

* pandas `DataFrame` values are modelled by `PyDF` (an ordered row index of
  integer labels plus an ordered association list of columns);
* cell values by `PyVal` (string, rational number, NaN, bool, list of
  strings, or list of tuples of strings);
* Python exceptions by `PyErr`, with fallible operations returning
  `Except PyErr _`;
* the concrete regular expressions of the source are embedded as
  executable leftmost-match searchers with the exact lazy/greedy
  behaviour of the patterns that appear in the code.

Each formatter of the source (`League._parseHeaders`,
`League._formatAuctionDraftTable`, `League._formatAuctionTable`,
`League._formatDraftTable`, `League._formatDraft`,
`League._formatActiveStatsTable`, `Team._formatTransactionTable`) is
translated statement by statement, including the in-place mutations the
pandas code performs on its argument (the auction formatter returns both
its result and the post-call state of its argument).
-/

set_option maxRecDepth 4000

-- Equality of `Except` results is decidable for the modelled types.
deriving instance DecidableEq for Except

/-- Python exceptions that the modelled code can raise. -/
inductive PyErr where
  | keyError
  | valueError
  | indexError
  | typeError
  | attributeError
  | nameError (missing : String)
  deriving DecidableEq, Repr

/-- Cell values of a modelled pandas DataFrame: strings, numbers (modelled
as rationals), NaN (the missing marker), booleans, Python lists of strings
(the split POS column) and Python lists of tuples of strings (the
TRANSACTION column). -/
inductive PyVal where
  | s (v : String)
  | num (v : Rat)
  | nan
  | b (v : Bool)
  | lst (v : List String)
  | tuples (v : List (List String))
  deriving DecidableEq, Repr

/-- Column labels: `pd.read_html` with no header row yields integer column
labels; the formatters also add string-labelled columns. -/
inductive ColKey where
  | num (n : Nat)
  | str (s : String)
  deriving DecidableEq, Repr

/-- A pandas DataFrame: an ordered row index of integer labels together
with an ordered association list of columns.  Each column list is aligned
positionally with the index. -/
structure PyDF where
  index : List Nat
  cols : List (ColKey × List PyVal)
  deriving DecidableEq, Repr

/-- Lookup of a column by label in an association list (first match). -/
def findColIn : List (ColKey × List PyVal) → ColKey → Option (List PyVal)
  | [], _ => none
  | (k', v) :: t, k => if k = k' then some v else findColIn t k

/-- Column access `df[k]` as an `Option`. -/
def getCol (df : PyDF) (k : ColKey) : Option (List PyVal) :=
  findColIn df.cols k

/-- Column assignment `df[k] = values`: replaces an existing column in
place, otherwise appends the new column at the end (pandas semantics). -/
def setColsList : List (ColKey × List PyVal) → ColKey → List PyVal →
    List (ColKey × List PyVal)
  | [], k, v => [(k, v)]
  | (k', v') :: t, k, v =>
      if k = k' then (k, v) :: t else (k', v') :: setColsList t k v

/-- Column assignment on a DataFrame. -/
def setColList (df : PyDF) (k : ColKey) (v : List PyVal) : PyDF :=
  ⟨df.index, setColsList df.cols k v⟩

/-- Scalar column assignment `df[k] = scalar` broadcasts the value over the
whole index. -/
def setColScalar (df : PyDF) (k : ColKey) (v : PyVal) : PyDF :=
  setColList df k (List.replicate df.index.length v)

/-- Label-based cell access `df[k].ix[l]`: on an integer index the old
pandas `.ix` accessor is label-based and raises `KeyError` when the label
is absent. -/
def ixLabel (df : PyDF) (k : ColKey) (l : Nat) : Except PyErr PyVal :=
  match getCol df k with
  | none => .error .keyError
  | some col =>
      match (df.index.zip col).find? (fun p => p.1 == l) with
      | some p => .ok p.2
      | none => .error .keyError

/-- Keeps the positions of a column whose row label differs from `l`. -/
def filterAligned (idx : List Nat) (col : List PyVal) (l : Nat) : List PyVal :=
  ((idx.zip col).filter (fun p => decide (p.1 ≠ l))).map Prod.snd

/-- Row removal `df.drop([l], inplace=True)`: drops every row labelled `l`,
raising `KeyError` when the label is absent. -/
def dropRowLabelE (df : PyDF) (l : Nat) : Except PyErr PyDF :=
  if l ∈ df.index then
    .ok ⟨df.index.filter (fun x => decide (x ≠ l)),
         df.cols.map (fun p => (p.1, filterAligned df.index p.2 l))⟩
  else .error .keyError

/-- Column join `df.join(other)` for an `other` aligned on the same index:
appends the new columns, raising `ValueError` when a column label
overlaps. -/
def joinColsE (df : PyDF) (new : List (ColKey × List PyVal)) :
    Except PyErr PyDF :=
  if new.any (fun p => (getCol df p.1).isSome) then .error .valueError
  else .ok ⟨df.index, df.cols ++ new⟩

/-- Helper of `dropColsE`: removes every entry whose label is listed. -/
def dropColsIn : List (ColKey × List PyVal) → List ColKey →
    List (ColKey × List PyVal)
  | [], _ => []
  | (k', v) :: t, keys =>
      if k' ∈ keys then dropColsIn t keys
      else (k', v) :: dropColsIn t keys

/-- Column removal `df.drop(keys, axis=1)`: raises `KeyError` when a label
is absent. -/
def dropColsE (df : PyDF) (keys : List ColKey) : Except PyErr PyDF :=
  if keys.all (fun k => (getCol df k).isSome) then
    .ok ⟨df.index, dropColsIn df.cols keys⟩
  else .error .keyError

/-- Helper of `selectColsE`: the chosen (label, column) pairs, `none` when
a label is absent. -/
def selectColsAux (df : PyDF) : List ColKey → Option (List (ColKey × List PyVal))
  | [] => some []
  | k :: ks =>
      match getCol df k, selectColsAux df ks with
      | some c, some rest => some ((k, c) :: rest)
      | _, _ => none

/-- Column selection `df[keys]` in the given order; `KeyError` when a label
is absent. -/
def selectColsE (df : PyDF) (keys : List ColKey) : Except PyErr PyDF :=
  match selectColsAux df keys with
  | some chosen => .ok ⟨df.index, chosen⟩
  | none => .error .keyError

/-- Helper of `mapColVals`: maps `f` over every entry with the given
label. -/
def mapColsIn : List (ColKey × List PyVal) → ColKey → (PyVal → PyVal) →
    List (ColKey × List PyVal)
  | [], _, _ => []
  | (k', v) :: t, k, f =>
      if k' = k then (k', v.map f) :: mapColsIn t k f
      else (k', v) :: mapColsIn t k f

/-- Elementwise map over one column (total transformation). -/
def mapColVals (df : PyDF) (k : ColKey) (f : PyVal → PyVal) : PyDF :=
  ⟨df.index, mapColsIn df.cols k f⟩

/-- Elementwise fallible map over a column, propagating the first raised
exception (the way a pandas conversion walks the cells). -/
def mapME (f : PyVal → Except PyErr PyVal) :
    List PyVal → Except PyErr (List PyVal)
  | [] => .ok []
  | a :: t =>
      match f a with
      | .error e => .error e
      | .ok b =>
          match mapME f t with
          | .error e => .error e
          | .ok bs => .ok (b :: bs)

/-- Elementwise map over one column with a fallible transformation
(`Series.apply` where the applied function can raise). -/
def mapColValsE (df : PyDF) (k : ColKey) (f : PyVal → Except PyErr PyVal) :
    Except PyErr PyDF :=
  match getCol df k with
  | none => .error .keyError
  | some col =>
      match mapME f col with
      | .error e => .error e
      | .ok col' => .ok (setColList df k col')

/-- Python slicing `l[s:]` for an arbitrary integer start: a negative start
counts from the end (clamped at 0), a non-negative start is clamped at the
length.  In particular `l[-0:]` is the whole list. -/
def pyIntSliceFrom (l : List α) (s : Int) : List α :=
  if s < 0 then l.drop (Int.toNat ((l.length : Int) + s))
  else l.drop (Int.toNat s)

/-- Digits-to-number accumulator for `parseNum`. -/
def digitsToNat (cs : List Char) : Nat :=
  cs.foldl (fun a c => a * 10 + (c.toNat - 48)) 0

/-- Model of the string parsing done by `pd.to_numeric` on a single cell:
an optional sign, then a decimal literal with at most one point and at
least one digit.  Unparseable strings yield `none` (pandas raises). -/
def parseNum (s0 : String) : Option Rat :=
  let cs := s0.data
  let signed : Bool × List Char :=
    match cs with
    | '-' :: t => (true, t)
    | '+' :: t => (false, t)
    | t => (false, t)
  let intPart := signed.2.takeWhile Char.isDigit
  let rest := signed.2.drop intPart.length
  let mag : Option Rat :=
    match rest with
    | [] => if intPart = [] then none else some ((digitsToNat intPart : Int) : Rat)
    | '.' :: frac =>
        if frac.all Char.isDigit ∧ (intPart ≠ [] ∨ frac ≠ []) then
          some (((digitsToNat intPart : Int) : Rat) +
                ((digitsToNat frac : Int) : Rat) / ((10 ^ frac.length : Int) : Rat))
        else none
    | _ => none
  mag.map (fun q => if signed.1 then -q else q)

/-- One cell under `pd.to_numeric`: strings are parsed (raising
`ValueError` when unparseable), numbers and NaN pass through, booleans
coerce to 0/1, and list values raise `TypeError`. -/
def toNumericVal : PyVal → Except PyErr PyVal
  | .s v => match parseNum v with
    | some q => .ok (.num q)
    | none => .error .valueError
  | .num q => .ok (.num q)
  | .nan => .ok .nan
  | .b v => .ok (.num (if v then 1 else 0))
  | .lst _ => .error .typeError
  | .tuples _ => .error .typeError

/-- A whole column under `pd.to_numeric` (raising mode, used for the PICK
and PRICE columns of the draft formatters). -/
def toNumericColE (col : List PyVal) : Except PyErr (List PyVal) :=
  mapME toNumericVal col

/-- A whole column under `pd.to_numeric(errors='ignore')`: the converted
column when every cell converts, the column unchanged otherwise. -/
def coerceCol (col : List PyVal) : List PyVal :=
  match toNumericColE col with
  | .ok col' => col'
  | .error _ => col

/-- Python slicing `x[1:]` on a cell: strings drop their first character,
anything else raises `TypeError` (the PRICE currency strip). -/
def pyStrTail : PyVal → Except PyErr PyVal
  | .s v => .ok (.s (v.drop 1))
  | _ => .error .typeError

/-- Python `\w` without the unicode flag: ASCII letters, digits and
underscore. -/
def isWordChar (c : Char) : Bool := c.isAlphanum || c == '_'

/-- The `.` metacharacter: any character except a newline. -/
def isDotChar (c : Char) : Bool := c != '\n'

/-- Attempt of the auction/draft pattern
`(?P<PLAYER>.+?), (?P<TEAM>\w+)\xa0(?P<POS>\w+)(?P<KEEPER>\xa0\xa0K$|$)`
with the PLAYER group spanning positions `[i, j)` of `cs`.  TEAM and POS
are greedy word runs (backtracking cannot shorten them because the
following character is not a word character), and the KEEPER alternation
tries the explicit keeper marker before the empty match at end. -/
def tryPTPKAt (cs : List Char) (i j : Nat) : Option (String × String × String × String) :=
  if i < j ∧ j ≤ cs.length ∧ ((cs.drop i).take (j - i)).all (fun c => c ≠ '\n') then
    let player := (cs.drop i).take (j - i)
    match cs.drop j with
    | ',' :: ' ' :: r =>
        let team := r.takeWhile isWordChar
        if team = [] then none else
        match r.drop team.length with
        | '\u00A0' :: r2 =>
            let pos := r2.takeWhile isWordChar
            if pos = [] then none else
            let r3 := r2.drop pos.length
            if r3 = ['\u00A0', '\u00A0', 'K'] then
              some (⟨player⟩, ⟨team⟩, ⟨pos⟩, "\u00A0\u00A0K")
            else if r3 = [] then
              some (⟨player⟩, ⟨team⟩, ⟨pos⟩, "")
            else none
        | _ => none
    | _ => none
  else none

/-- `re.search` of the auction/draft pattern: leftmost starting position,
then the lazy `.+?` takes the shortest PLAYER that lets the rest match. -/
def extractPTPK (s : String) : Option (String × String × String × String) :=
  let cs := s.data
  (List.range cs.length).findSome? (fun i =>
    (List.range (cs.length + 1)).findSome? (fun j => tryPTPKAt cs i j))

/-- Attempt of the active-stats pattern
`^(?P<PLAYER>.+?), (?P<TEAM>\w+)\xa0(?P<POS>.+?)(?P<DTD>$|\xa0\xa0DTD$)`
with PLAYER spanning `[0, j)` and POS of length `m`.  The DTD alternation
takes the empty match at end of string first, otherwise the literal
marker; the lazy POS stops at the first length at which either
alternative succeeds. -/
def tryPTPDAt (cs : List Char) (j m : Nat) : Option (String × String × String × String) :=
  if 0 < j ∧ j ≤ cs.length ∧ (cs.take j).all (fun c => c ≠ '\n') then
    let player := cs.take j
    match cs.drop j with
    | ',' :: ' ' :: r =>
        let team := r.takeWhile isWordChar
        if team = [] then none else
        match r.drop team.length with
        | '\u00A0' :: r2 =>
            if 0 < m ∧ m ≤ r2.length ∧ (r2.take m).all (fun c => c ≠ '\n') then
              let pos := r2.take m
              let r3 := r2.drop m
              if r3 = [] then some (⟨player⟩, ⟨team⟩, ⟨pos⟩, "")
              else if r3 = ['\u00A0', '\u00A0', 'D', 'T', 'D'] then
                some (⟨player⟩, ⟨team⟩, ⟨pos⟩, "\u00A0\u00A0DTD")
              else none
            else none
        | _ => none
    | _ => none
  else none

/-- `re.search` of the anchored active-stats pattern: the match starts at
position 0, PLAYER lazy, then POS lazy. -/
def extractPTPD (s : String) : Option (String × String × String × String) :=
  let cs := s.data
  (List.range (cs.length + 1)).findSome? (fun j =>
    (List.range (cs.length + 1)).findSome? (fun m => tryPTPDAt cs j m))

/-- A resolved column name in `League._parseHeaders`: either real header
text or the synthetic integer placeholder taken from the `noname`
counter (the Python code mixes ints and strings in one list). -/
inductive ColName where
  | synth (n : Nat)
  | real (s : String)
  deriving DecidableEq, Repr

/-- A sub-header `<td>` as the parser sees it: its optional `colspan`
attribute and the list of its text nodes. -/
structure Td where
  colspan : Option Nat
  texts : List String
  deriving DecidableEq, Repr

/-- One cell of a two-row sub-header under `League._parseHeaders`: a cell
with no text yields one fresh placeholder; a cell with a `colspan`
attribute `n` yields `n` copies of a single placeholder value while the
counter advances only once; a plain text cell yields its text nodes
joined with one space.  Returns the produced names and the new counter. -/
def parseTd (noname : Nat) (td : Td) : List ColName × Nat :=
  if td.texts = [] then ([.synth noname], noname + 1)
  else
    match td.colspan with
    | some n => (List.replicate n (.synth noname), noname + 1)
    | none => ([.real (String.intercalate " " td.texts)], noname)

/-- A whole sub-header row, threading the `noname` counter. -/
def parseSubHeadRow : List Td → Nat → List ColName × Nat
  | [], noname => ([], noname)
  | td :: tds, noname =>
      let cell := parseTd noname td
      let rest := parseSubHeadRow tds cell.2
      (cell.1 ++ rest.1, rest.2)

/-- The merge of the two resolved sub-header rows:
`columns = subHead1[:2] + subHeadRow + subHead1[-n:]` with
`n = len(subHead1) - 2 - len(subHeadRow)`, using Python slice
semantics for the possibly non-positive `-n`. -/
def mergeSubHeads (r1 r2 : List ColName) : List ColName :=
  r1.take 2 ++ r2 ++
    pyIntSliceFrom r1 (-((r1.length : Int) - 2 - (r2.length : Int)))

/-- The two-row branch of `League._parseHeaders`: resolve both rows with
one running counter starting at 10, then merge. -/
def parseHeadersTwoRow (tds1 tds2 : List Td) : List ColName :=
  let row1 := parseSubHeadRow tds1 10
  let row2 := parseSubHeadRow tds2 row1.2
  mergeSubHeads row1.1 row2.1

/-- Lifts a composite-field extractor to a cell, as `Series.str.extract`
does: non-string cells and non-matching strings give NaN in every
capture group. -/
def pvalExtract (f : String → Option (String × String × String × String))
    (v : PyVal) : PyVal × PyVal × PyVal × PyVal :=
  match v with
  | .s t =>
      match f t with
      | some g => (.s g.1, .s g.2.1, .s g.2.2.1, .s g.2.2.2)
      | none => (.nan, .nan, .nan, .nan)
  | _ => (.nan, .nan, .nan, .nan)

/-- Python truthiness of a cell (`np.logical_not` applies `bool` cellwise
on an object column): empty strings, zero, false and empty lists are
falsy; NaN is truthy. -/
def pyTruthy : PyVal → Bool
  | .s v => v != ""
  | .num q => q != 0
  | .nan => true
  | .b v => v
  | .lst v => !v.isEmpty
  | .tuples v => !v.isEmpty

/-- The literal keeper marker `'\xa0\xa0K'`. -/
def keeperMark : PyVal := .s "\u00A0\u00A0K"

/-- The two in-place KEEPER updates of `League._formatAuctionDraftTable`:
first cells equal to the keeper marker become `True`, then cells that are
falsy after that step become `False` (NaN stays NaN, being truthy). -/
def keeperFix (v : PyVal) : PyVal :=
  let v1 := if v = keeperMark then .b true else v
  if pyTruthy v1 then v1 else .b false

/-- The four columns produced by `df[1].str.extract(reStr, expand=True)`
in `League._formatAuctionDraftTable` (lines 57-64): extract
PLAYER/TEAM/POS/KEEPER from column 1. -/
def draftExtractCols (c1 : List PyVal) : List (ColKey × List PyVal) :=
  let ext := c1.map (pvalExtract extractPTPK)
  [(.str "PLAYER", ext.map (fun g => g.1)),
   (.str "TEAM", ext.map (fun g => g.2.1)),
   (.str "POS", ext.map (fun g => g.2.2.1)),
   (.str "KEEPER", ext.map (fun g => g.2.2.2))]

/-- Extraction/join/KEEPER-fix/column-drop chain of lines 60-64. -/
def formatAuctionDraftTable (df : PyDF) : Except PyErr PyDF :=
  match getCol df (.num 1) with
  | none => .error .keyError
  | some c1 =>
      match joinColsE df (draftExtractCols c1) with
      | .error e => .error e
      | .ok dfj =>
          dropColsE (mapColVals dfj (.str "KEEPER") keeperFix)
            [.num 0, .num 1, .num 2]

/-- The fixed output column order of the auction formatter. -/
def auctionOutKeys : List ColKey :=
  [.str "MANAGER", .str "PLAYER", .str "PICK", .str "TEAM", .str "POS",
   .str "PRICE", .str "KEEPER"]

/-- Model of `League._formatAuctionTable` (lines 66-79).  The pandas code
mutates its argument in place (scalar MANAGER assignment, row drop, PICK
and PRICE assignments) before `_formatAuctionDraftTable` rebinds `df` to
a fresh joined frame, so the caller's object is left in the mutated
state; the model returns the pair (result, post-call state of the
argument).  `auctionPost` is that post-call state: the frame after the
MANAGER broadcast, carrier-row drop and PICK/PRICE assignments. -/
def auctionPost (df2 : PyDF) (pick price : List PyVal) : PyDF :=
  setColList (setColList df2 (.str "PICK") pick) (.str "PRICE") price

/-- Dispatch chain of `League._formatAuctionTable`. -/
def formatAuctionTable (df : PyDF) : Except PyErr (PyDF × PyDF) :=
  match ixLabel df (.num 0) 0 with
  | .error e => .error e
  | .ok manager =>
      match dropRowLabelE (setColScalar df (.str "MANAGER") manager) 0 with
      | .error e => .error e
      | .ok df2 =>
          match getCol df2 (.num 0) with
          | none => .error .keyError
          | some c0 =>
              match toNumericColE c0 with
              | .error e => .error e
              | .ok pick =>
                  match getCol (setColList df2 (.str "PICK") pick) (.num 2) with
                  | none => .error .keyError
                  | some c2 =>
                      match mapME pyStrTail c2 with
                      | .error e => .error e
                      | .ok c2t =>
                          match toNumericColE c2t with
                          | .error e => .error e
                          | .ok price =>
                              match formatAuctionDraftTable
                                  (auctionPost df2 pick price) with
                              | .error e => .error e
                              | .ok out =>
                                  match selectColsE out auctionOutKeys with
                                  | .error e => .error e
                                  | .ok res =>
                                      .ok (res, auctionPost df2 pick price)

/-- Python name resolution inside a function body: only the bound
parameters are in scope; an unbound name raises `NameError`. -/
def pyLookupName (scope : List (String × PyDF)) (n : String) :
    Except PyErr PyDF :=
  match scope.find? (fun p => p.1 == n) with
  | some p => .ok p.2
  | none => .error (.nameError n)

/-- The `'ROUND '` label strip `df[0].ix[0].replace('ROUND ', '')`:
string cells replace every occurrence, non-strings raise
`AttributeError`. -/
def roundStrip : PyVal → Except PyErr PyVal
  | .s v => .ok (.s (v.replace "ROUND " ""))
  | _ => .error .attributeError

/-- The fixed output column order of the snake/offline/autopick
formatter. -/
def draftOutKeys : List ColKey :=
  [.str "ROUND", .str "PICK", .str "MANAGER", .str "PLAYER", .str "TEAM",
   .str "POS", .str "KEEPER"]

/-- The statements of `League._formatDraftTable`'s body (lines 86-94) as
they would execute on a frame bound to the name `df`: read the ROUND
carrier cell, drop the carrier row, broadcast ROUND, parse PICK, copy
column 2 to MANAGER, extract the composite column, and select the output
order. -/
def formatDraftTableBody (df : PyDF) : Except PyErr PyDF :=
  match ixLabel df (.num 0) 0 with
  | .error e => .error e
  | .ok carrier =>
      match roundStrip carrier with
      | .error e => .error e
      | .ok rnd =>
          match dropRowLabelE df 0 with
          | .error e => .error e
          | .ok df1 =>
              let df2 := setColScalar df1 (.str "ROUND") rnd
              match getCol df2 (.num 0) with
              | none => .error .keyError
              | some c0 =>
                  match toNumericColE c0 with
                  | .error e => .error e
                  | .ok pick =>
                      let df3 := setColList df2 (.str "PICK") pick
                      match getCol df3 (.num 2) with
                      | none => .error .keyError
                      | some c2 =>
                          let df4 := setColList df3 (.str "MANAGER") c2
                          match formatAuctionDraftTable df4 with
                          | .error e => .error e
                          | .ok out => selectColsE out draftOutKeys

/-- Model of `League._formatDraftTable` (lines 81-94) as written: the
parameter is bound to the name `html`, while every statement of the body
refers to the name `df`, which is bound nowhere, so evaluating the first
statement raises `NameError`. -/
def formatDraftTable (html : PyDF) : Except PyErr PyDF :=
  match pyLookupName [("html", html)] "df" with
  | .error e => .error e
  | .ok df => formatDraftTableBody df

/-- Model of `League._formatDraft` (lines 96-101): dispatch on the draft
type string.  The Python function has no `else` branch, so any other
draft type falls through and the function returns `None`; the model
returns `Except.ok Option.none` for that implicit return. -/
def formatDraft (df : PyDF) (draftType : String) : Except PyErr (Option PyDF) :=
  if draftType = "Auction Draft" then
    match formatAuctionTable df with
    | .error e => .error e
    | .ok r => .ok (some r.1)
  else if draftType = "Snake Draft" ∨ draftType = "Offline Draft" ∨
      draftType = "Autopick Draft" then
    match formatDraftTable df with
    | .error e => .error e
    | .ok r => .ok (some r)
  else .ok none

/-- A column has pandas dtype `object` exactly when it still holds
non-numeric Python objects (strings or lists) after `read_html`'s own
type inference. -/
def dtypeObject (col : List PyVal) : Bool :=
  col.any (fun v =>
    match v with
    | .s _ => true
    | .lst _ => true
    | .tuples _ => true
    | _ => false)

/-- One cell of the masked replacement
`df.iloc[rows] = df.iloc[rows].replace('--', nan)`: `m` is the row's cell
in the third column (the mask source); cells equal to `'--'` in masked
rows become NaN. -/
def replaceMaskedCell (m v : PyVal) : PyVal :=
  if m = .s "--" ∧ v = .s "--" then .nan else v

/-- Lines 135-138 of `League._formatActiveStatsTable`: only when the
column at position 2 has object dtype, the rows whose position-2 cell is
`'--'` get all their `'--'` cells replaced by NaN; `df.iloc[:, 2]` on a
frame with fewer than three columns raises `IndexError`.  (After the
footer drop the integer row labels coincide with the row positions, which
the code's use of `df.iloc[rows]` with a label list relies on.) -/
def replaceDashRowsE (df : PyDF) : Except PyErr PyDF :=
  match df.cols.get? 2 with
  | none => .error .indexError
  | some p2 =>
      if dtypeObject p2.2 then
        .ok ⟨df.index,
             df.cols.map (fun p =>
               (p.1, (p2.2.zip p.2).map (fun q => replaceMaskedCell q.1 q.2)))⟩
      else .ok df

/-- Line 139, `df.apply(pd.to_numeric, errors='ignore')`: every column is
coerced to numbers when all of its cells convert, and left untouched
otherwise. -/
def coerceStage (df : PyDF) : PyDF :=
  ⟨df.index, df.cols.map (fun p => (p.1, coerceCol p.2))⟩

/-- Helper of `pySplitCommaSpace`: fuel-driven splitter on the two-char
separator `', '` accumulating the current token in reverse.  The fuel is
the remaining character count, so it never runs out. -/
def splitCSAux : Nat → List Char → List Char → List (List Char)
  | 0, cs, acc => [acc.reverse ++ cs]
  | _ + 1, [], acc => [acc.reverse]
  | fuel + 1, ',' :: ' ' :: rest, acc => acc.reverse :: splitCSAux fuel rest []
  | fuel + 1, c :: rest, acc => splitCSAux fuel rest (c :: acc)

/-- Python `str.split(', ')`: splits on every non-overlapping occurrence
of the separator, keeping empty tokens. -/
def pySplitCommaSpace (s : String) : List String :=
  (splitCSAux s.data.length s.data []).map (fun l => ⟨l⟩)

/-- Line 144, `df['POS'].apply(lambda x: x.split(', '))`: string cells
split on `', '`; a NaN cell (a float) has no `split` attribute and raises
`AttributeError`. -/
def posSplit : PyVal → Except PyErr PyVal
  | .s v => .ok (.lst (pySplitCommaSpace v))
  | _ => .error .attributeError

/-- Does `'Unnamed: \d+'` match at the head of this character list? -/
def unnamedAt (cs : List Char) : Bool :=
  "Unnamed: ".data.isPrefixOf cs &&
    (match cs.drop 9 with
     | c :: _ => c.isDigit
     | [] => false)

/-- `re.search('Unnamed: \d+', s)` as a Boolean: the pattern matches at
some position of `s`. -/
def unnamedSearch (s : String) : Bool :=
  (List.range s.data.length).any (fun i => unnamedAt (s.data.drop i))

/-- Is this column label a string label? -/
def isStrKey : ColKey → Bool
  | .str _ => true
  | .num _ => false

/-- Line 146, `df.select(lambda x: not re.search('Unnamed: \d+', x),
axis=1)`: keeps the columns whose (string) label does not contain an
`Unnamed: <digit>` fragment; `re.search` applied to an integer label
raises `TypeError`. -/
def keepNotUnnamed : List (ColKey × List PyVal) → List (ColKey × List PyVal)
  | [] => []
  | (ColKey.str s, v) :: t =>
      if unnamedSearch s then keepNotUnnamed t
      else (ColKey.str s, v) :: keepNotUnnamed t
  | (ColKey.num n, v) :: t => (ColKey.num n, v) :: keepNotUnnamed t

/-- The filtering step of line 146. -/
def selectNotUnnamedE (df : PyDF) : Except PyErr PyDF :=
  if df.cols.all (fun p => isStrKey p.1) then
    .ok ⟨df.index, keepNotUnnamed df.cols⟩
  else .error .typeError

/-- The combined name column of the active-stats page. -/
def statsCompositeKey : ColKey := .str "PLAYER, TEAM POS"

/-- Model of `League._formatActiveStatsTable` (lines 129-147): drop the
footer row (the label `df.shape[0] - 1`), run the guarded `'--'`
replacement, coerce columns to numbers where possible, extract
PLAYER/TEAM/POS/DTD from the combined name column, drop that column,
split POS on `', '`, and drop the `Unnamed:` placeholder columns.
`statsExtractCols` is the frame produced by the
`.str.extract(reStr, expand=True)` call of line 142. -/
def statsExtractCols (c : List PyVal) : List (ColKey × List PyVal) :=
  let ext := c.map (pvalExtract extractPTPD)
  [(.str "PLAYER", ext.map (fun g => g.1)),
   (.str "TEAM", ext.map (fun g => g.2.1)),
   (.str "POS", ext.map (fun g => g.2.2.1)),
   (.str "DTD", ext.map (fun g => g.2.2.2))]

/-- Formatter chain of `League._formatActiveStatsTable`. -/
def formatActiveStatsTable (df : PyDF) : Except PyErr PyDF :=
  match dropRowLabelE df (df.index.length - 1) with
  | .error e => .error e
  | .ok df1 =>
      match replaceDashRowsE df1 with
      | .error e => .error e
      | .ok df2 =>
          match getCol (coerceStage df2) statsCompositeKey with
          | none => .error .keyError
          | some c =>
              match joinColsE (coerceStage df2) (statsExtractCols c) with
              | .error e => .error e
              | .ok df4 =>
                  match dropColsE df4 [statsCompositeKey] with
                  | .error e => .error e
                  | .ok df5 =>
                      match mapColValsE df5 (.str "POS") posSplit with
                      | .error e => .error e
                      | .ok df6 => selectNotUnnamedE df6

/-- Core of the transaction sentence patterns: all four share the shape
`(\w+) <verb> (.+?), \w+ \w+ <prep> <dest>`.  The leading `\w+` and the
two middle `\w+` runs are greedy but deterministic (the character that
must follow each run is never a word character), the middle group is
lazy, and `<dest>` is either the `Waivers|Free Agency` alternation or a
captured `\w+`.  Returns the three captured groups and the end position
of the match starting at `i`. -/
def matchTransAt (verb preposition : List Char) (wordDest : Bool)
    (cs : List Char) (i : Nat) : Option (List String × Nat) :=
  let n := cs.length
  let g1 := (cs.drop i).takeWhile isWordChar
  if g1 = [] then none else
  let p1 := i + g1.length
  let lit1 := ' ' :: (verb ++ [' '])
  if lit1.isPrefixOf (cs.drop p1) then
    let p2 := p1 + lit1.length
    (List.range (n + 1)).findSome? (fun len2 =>
      if 0 < len2 ∧ p2 + len2 ≤ n ∧
          ((cs.drop p2).take len2).all (fun c => c ≠ '\n') then
        let g2 := (cs.drop p2).take len2
        let p3 := p2 + len2
        if [',', ' '].isPrefixOf (cs.drop p3) then
          let w1 := (cs.drop (p3 + 2)).takeWhile isWordChar
          if w1 = [] then none else
          let p5 := p3 + 2 + w1.length
          match cs.drop p5 with
          | ' ' :: r5 =>
              let w2 := r5.takeWhile isWordChar
              if w2 = [] then none else
              let p6 := p5 + 1 + w2.length
              let lit2 := ' ' :: (preposition ++ [' '])
              if lit2.isPrefixOf (cs.drop p6) then
                let p7 := p6 + lit2.length
                if wordDest then
                  let g3 := (cs.drop p7).takeWhile isWordChar
                  if g3 = [] then none
                  else some ([⟨g1⟩, ⟨g2⟩, ⟨g3⟩], p7 + g3.length)
                else
                  if "Waivers".data.isPrefixOf (cs.drop p7) then
                    some ([⟨g1⟩, ⟨g2⟩, "Waivers"], p7 + 7)
                  else if "Free Agency".data.isPrefixOf (cs.drop p7) then
                    some ([⟨g1⟩, ⟨g2⟩, "Free Agency"], p7 + 11)
                  else none
              else none
          | _ => none
        else none
      else none)
  else none

/-- One attempt of the combined add/drop pattern
`(\w+) dropped (.+?), \w+ \w+ to (Waivers|Free Agency)|(\w+) added
(.+?), \w+ \w+ from (Waivers|Free Agency)` at position `i`: the dropped
branch is tried first; `re.findall` renders the groups of the untaken
branch as empty strings, giving 6-tuples. -/
def matchAddDropAt (cs : List Char) (i : Nat) : Option (List String × Nat) :=
  match matchTransAt "dropped".data "to".data false cs i with
  | some r => some (r.1 ++ ["", "", ""], r.2)
  | none =>
      match matchTransAt "added".data "from".data false cs i with
      | some r => some (["", "", ""] ++ r.1, r.2)
      | none => none

/-- `re.findall` driver: starting from position `p`, find the leftmost
match, record its groups, and continue after its end.  Matches here
always consume at least one character, so fuel `n + 1` suffices. -/
def findAllFromAux (matchAt : Nat → Option (List String × Nat)) (n : Nat) :
    Nat → Nat → List (List String)
  | 0, _ => []
  | fuel + 1, p =>
      match (List.range' p (n + 1 - p)).findSome? matchAt with
      | none => []
      | some r => r.1 :: findAllFromAux matchAt n fuel (max r.2 (p + 1))

/-- `DETAIL.str.findall(addDropStr)`. -/
def pyFindAllAddDrop (s : String) : List (List String) :=
  findAllFromAux (matchAddDropAt s.data) s.data.length (s.data.length + 1) 0

/-- `DETAIL.str.findall(addStr)` with
`addStr = '(\w+) added (.+?), \w+ \w+ from (Waivers|Free Agency)'`. -/
def pyFindAllAdd (s : String) : List (List String) :=
  findAllFromAux (matchTransAt "added".data "from".data false s.data)
    s.data.length (s.data.length + 1) 0

/-- `DETAIL.str.findall(dropStr)` with
`dropStr = '(\w+) dropped (.+?), \w+ \w+ to (Waivers|Free Agency)'`. -/
def pyFindAllDrop (s : String) : List (List String) :=
  findAllFromAux (matchTransAt "dropped".data "to".data false s.data)
    s.data.length (s.data.length + 1) 0

/-- `DETAIL.str.findall(tradeStr)` with
`tradeStr = '(\w+) traded (.+?), \w+ \w+ to (\w+)'`. -/
def pyFindAllTrade (s : String) : List (List String) :=
  findAllFromAux (matchTransAt "traded".data "to".data true s.data)
    s.data.length (s.data.length + 1) 0

/-- The row transformation `lambda x: [x[0][:3], x[1][:3:-1]]` applied to
a findall result: Python raises `IndexError` unless the list has at least
two matches; `t[:3]` keeps the first three elements and `t[:3:-1]` walks
the 6-tuple backwards down to index 4. -/
def lamAddDrop (x : List (List String)) : Except PyErr PyVal :=
  match x.get? 0 with
  | none => .error .indexError
  | some t0 =>
      match x.get? 1 with
      | none => .error .indexError
      | some t1 => .ok (.tuples [t0.take 3, (t1.drop 4).reverse])

/-- The row transformation `lambda x: [x[0][::-1]]` of the add-only
family. -/
def lamAdd (x : List (List String)) : Except PyErr PyVal :=
  match x.get? 0 with
  | none => .error .indexError
  | some t0 => .ok (.tuples [t0.reverse])

/-- The TYPE keys of the four transaction pattern families (the
`\xa0\xa0` separators are non-breaking spaces). -/
def addDropKey : String := "Transaction\u00A0\u00A0Add/Drop"

/-- TYPE key of the add-only family. -/
def addKey : String := "Transaction\u00A0\u00A0Add"

/-- TYPE key of the drop-only family. -/
def dropKey : String := "Transaction\u00A0\u00A0Drop"

/-- TYPE key of the trade family. -/
def tradeKey : String := "Transaction\u00A0\u00A0Trade Processed"

/-- The labelled (TYPE, DETAIL) rows of a transaction frame;
`KeyError` when either column is missing. -/
def typeDetailRows (df : PyDF) : Except PyErr (List (Nat × PyVal × PyVal)) :=
  match getCol df (.str "TYPE"), getCol df (.str "DETAIL") with
  | some tcol, some dcol =>
      .ok ((df.index.zip (tcol.zip dcol)).map (fun p => (p.1, p.2.1, p.2.2)))
  | _, _ => .error .keyError

/-- `df['TYPE'].str.match(key)` on one cell: a string cell tests whether
the (literal) pattern matches at its start; a non-string cell yields NaN
in the mask, and indexing a frame with a NaN-holding Boolean mask
raises. -/
def matchMask (key : String) : PyVal → Except PyErr Bool
  | .s t => .ok (key.data.isPrefixOf t.data)
  | _ => .error .valueError

/-- `df[df['TYPE'].str.match(key)]['DETAIL']`: the labelled DETAIL cells
of the rows whose TYPE starts with `key`. -/
def selectByType (df : PyDF) (key : String) :
    Except PyErr (List (Nat × PyVal)) :=
  match typeDetailRows df with
  | .error e => .error e
  | .ok rows =>
      match rows.mapM (fun r =>
          (matchMask key r.2.1).map (fun b => (b, r.1, r.2.2))) with
      | .error e => .error e
      | .ok l => .ok ((l.filter (fun t => t.1)).map (fun t => (t.2.1, t.2.2)))

/-- `.str.findall(...)` over a selected DETAIL series, optionally followed
by a `Series.apply` lambda.  A non-string DETAIL gives NaN from
`str.findall`; a lambda subscripting that NaN raises `TypeError`, while
the families without a lambda store the value as is. -/
def applyFindAllE (fa : String → List (List String))
    (lam : Option (List (List String) → Except PyErr PyVal))
    (sel : List (Nat × PyVal)) : Except PyErr (List (Nat × PyVal)) :=
  sel.mapM (fun r =>
    match r.2 with
    | .s d =>
        match lam with
        | some f => (f (fa d)).map (fun v => (r.1, v))
        | none => .ok (r.1, .tuples (fa d))
    | _ =>
        match lam with
        | some _ => .error .typeError
        | none => .ok (r.1, .nan))

/-- Model of the classification part of `Team._formatTransactionTable`
(lines 308-329), taking the frame after the DATE and DETAIL columns have
been attached: build the four family series in the order of the source
(add/drop with its two-tuple lambda first, then add, drop, trade),
concatenate them, and join the result back as the TRANSACTION column
(rows in no family get NaN).  The join model pairs each row label with
its first entry in the concatenated series, which is the pandas result
whenever no label occurs twice. -/
def formatTransactionsCore (df : PyDF) : Except PyErr PyDF :=
  match selectByType df addDropKey with
  | .error e => .error e
  | .ok sel1 =>
      match applyFindAllE pyFindAllAddDrop (some lamAddDrop) sel1 with
      | .error e => .error e
      | .ok sAddDrop =>
          match selectByType df addKey with
          | .error e => .error e
          | .ok sel2 =>
              match applyFindAllE pyFindAllAdd (some lamAdd) sel2 with
              | .error e => .error e
              | .ok sAdd =>
                  match selectByType df dropKey with
                  | .error e => .error e
                  | .ok sel3 =>
                      match applyFindAllE pyFindAllDrop none sel3 with
                      | .error e => .error e
                      | .ok sDrop =>
                          match selectByType df tradeKey with
                          | .error e => .error e
                          | .ok sel4 =>
                              match applyFindAllE pyFindAllTrade none sel4 with
                              | .error e => .error e
                              | .ok sTrade =>
                                  let txs := sAddDrop ++ sAdd ++ sDrop ++ sTrade
                                  .ok ⟨df.index, df.cols ++
                                    [(.str "TRANSACTION",
                                      df.index.map (fun l =>
                                        match txs.find? (fun p => p.1 == l) with
                                        | some p => p.2
                                        | none => .nan))]⟩

/-! Basic lemmas about the DataFrame operations. -/

theorem findColIn_setColsList_self (cols : List (ColKey × List PyVal))
    (k : ColKey) (v : List PyVal) :
    findColIn (setColsList cols k v) k = some v := by
  induction cols with
  | nil => simp [setColsList, findColIn]
  | cons p t ih =>
      by_cases hk : k = p.1
      · simp [setColsList, hk, findColIn]
      · simp [setColsList, hk, findColIn, ih]

theorem findColIn_setColsList_other (cols : List (ColKey × List PyVal))
    (k k' : ColKey) (v : List PyVal) (h : k' ≠ k) :
    findColIn (setColsList cols k v) k' = findColIn cols k' := by
  induction cols with
  | nil => simp [setColsList, findColIn, h]
  | cons p t ih =>
      by_cases hk : k = p.1
      · subst hk
        simp [setColsList, findColIn, h, ih]
      · by_cases hk' : k' = p.1
        · simp [setColsList, hk, findColIn, hk']
        · simp [setColsList, hk, findColIn, hk', ih]

theorem getCol_setColList_self (df : PyDF) (k : ColKey) (v : List PyVal) :
    getCol (setColList df k v) k = some v :=
  findColIn_setColsList_self df.cols k v

theorem getCol_setColList_other (df : PyDF) (k k' : ColKey) (v : List PyVal)
    (h : k' ≠ k) : getCol (setColList df k v) k' = getCol df k' :=
  findColIn_setColsList_other df.cols k k' v h

theorem findColIn_append_left (a b : List (ColKey × List PyVal)) (k : ColKey)
    (v : List PyVal) (h : findColIn a k = some v) :
    findColIn (a ++ b) k = some v := by
  induction a with
  | nil => simp [findColIn] at h
  | cons p t ih =>
      by_cases hk : k = p.1
      · simp [findColIn, hk] at h ⊢
        exact h
      · simp [findColIn, hk] at h ⊢
        exact ih h

theorem findColIn_append_none (a b : List (ColKey × List PyVal)) (k : ColKey)
    (h : findColIn a k = none) :
    findColIn (a ++ b) k = findColIn b k := by
  induction a with
  | nil => simp
  | cons p t ih =>
      by_cases hk : k = p.1
      · simp [findColIn, hk] at h
      · simp [findColIn, hk] at h ⊢
        exact ih h

theorem findColIn_mapColsIn_other (cols : List (ColKey × List PyVal))
    (k k' : ColKey) (f : PyVal → PyVal) (h : k' ≠ k) :
    findColIn (mapColsIn cols k f) k' = findColIn cols k' := by
  induction cols with
  | nil => simp [mapColsIn]
  | cons p t ih =>
      obtain ⟨pk, pv⟩ := p
      by_cases hpk : pk = k
      · subst hpk
        simp [mapColsIn, findColIn, h, ih]
      · by_cases hk' : k' = pk
        · subst hk'
          simp [mapColsIn, findColIn, hpk]
        · simp [mapColsIn, findColIn, hpk, hk', ih]

theorem findColIn_mapColsIn_same (cols : List (ColKey × List PyVal))
    (k : ColKey) (f : PyVal → PyVal) :
    findColIn (mapColsIn cols k f) k = (findColIn cols k).map (List.map f) := by
  induction cols with
  | nil => simp [mapColsIn, findColIn]
  | cons p t ih =>
      obtain ⟨pk, pv⟩ := p
      by_cases hpk : pk = k
      · subst hpk
        simp [mapColsIn, findColIn]
      · have hne : k ≠ pk := fun hh => hpk hh.symm
        simp [mapColsIn, findColIn, hpk, hne, ih]

theorem findColIn_dropColsIn (cols : List (ColKey × List PyVal))
    (keys : List ColKey) (k : ColKey) (h : k ∉ keys) :
    findColIn (dropColsIn cols keys) k = findColIn cols k := by
  induction cols with
  | nil => simp [dropColsIn]
  | cons p t ih =>
      obtain ⟨pk, pv⟩ := p
      by_cases hmem : pk ∈ keys
      · have hk : k ≠ pk := fun hh => h (hh ▸ hmem)
        simp [dropColsIn, findColIn, hmem, hk, ih]
      · by_cases hk : k = pk
        · subst hk
          simp [dropColsIn, findColIn, hmem]
        · simp [dropColsIn, findColIn, hmem, hk, ih]

theorem ixLabel_mem (df : PyDF) (k : ColKey) (l : Nat) (v : PyVal)
    (h : ixLabel df k l = .ok v) : l ∈ df.index := by
  unfold ixLabel at h
  split at h
  · exact absurd h (by simp)
  · rename_i col hg
    split at h
    · rename_i p hf
      have hp := List.find?_some hf
      have hmem := List.mem_of_find?_eq_some hf
      have h1 : p.1 = l := by simpa using hp
      have h2 : p.1 ∈ df.index := by
        obtain ⟨a, b⟩ := p
        exact (List.of_mem_zip hmem).1
      exact h1 ▸ h2
    · exact absurd h (by simp)

theorem ixLabel_absent (df : PyDF) (k : ColKey) (l : Nat)
    (h : l ∉ df.index) : ixLabel df k l = .error .keyError := by
  unfold ixLabel
  split
  · rfl
  · rename_i col hg
    have hf : (df.index.zip col).find? (fun p => p.1 == l) = none := by
      rw [List.find?_eq_none]
      intro p hp
      obtain ⟨a, b⟩ := p
      have := (List.of_mem_zip hp).1
      simp only [beq_iff_eq]
      intro heq
      exact h (heq ▸ this)
    rw [hf]

theorem filterAligned_replicate (idx : List Nat) (m : PyVal) (l : Nat) :
    filterAligned idx (List.replicate idx.length m) l =
      List.replicate (idx.filter (fun x => decide (x ≠ l))).length m := by
  induction idx with
  | nil => simp [filterAligned]
  | cons a t ih =>
      by_cases ha : a = l
      · subst ha
        simpa [filterAligned, List.replicate_succ, List.filter_cons] using ih
      · simpa [filterAligned, List.replicate_succ, List.filter_cons, ha,
          List.replicate] using ih

theorem selectColsAux_mem (df : PyDF) (keys : List ColKey)
    (chosen : List (ColKey × List PyVal)) (k : ColKey)
    (h : selectColsAux df keys = some chosen) (hk : k ∈ keys) :
    findColIn chosen k = getCol df k := by
  induction keys generalizing chosen with
  | nil => exact absurd hk (by simp)
  | cons k0 ks ih =>
      unfold selectColsAux at h
      cases hg : getCol df k0 with
      | none => rw [hg] at h; exact absurd h (by simp)
      | some c =>
          rw [hg] at h
          cases hr : selectColsAux df ks with
          | none => rw [hr] at h; exact absurd h (by simp)
          | some rest =>
              rw [hr] at h
              have hch : chosen = (k0, c) :: rest := by
                simpa using h.symm
              subst hch
              by_cases hkk : k = k0
              · subst hkk
                simp [findColIn, hg]
              · have hkmem : k ∈ ks := by
                  cases List.mem_cons.mp hk with
                  | inl hh => exact absurd hh hkk
                  | inr hh => exact hh
                simp [findColIn, hkk, ih rest hr hkmem]

theorem selectColsE_ok_getCol (df r : PyDF) (keys : List ColKey) (k : ColKey)
    (h : selectColsE df keys = .ok r) (hk : k ∈ keys) :
    getCol r k = getCol df k := by
  unfold selectColsE at h
  cases hs : selectColsAux df keys with
  | none => rw [hs] at h; exact absurd h (by simp)
  | some chosen =>
      rw [hs] at h
      have : r = ⟨df.index, chosen⟩ := by simpa using h.symm
      subst this
      exact selectColsAux_mem df keys chosen k hs hk

theorem selectColsE_ok_index (df r : PyDF) (keys : List ColKey)
    (h : selectColsE df keys = .ok r) : r.index = df.index := by
  unfold selectColsE at h
  cases hs : selectColsAux df keys with
  | none => rw [hs] at h; exact absurd h (by simp)
  | some chosen =>
      rw [hs] at h
      have : r = ⟨df.index, chosen⟩ := by simpa using h.symm
      subst this
      rfl

theorem dropRowLabelE_ok (df d' : PyDF) (l : Nat)
    (h : dropRowLabelE df l = .ok d') :
    d'.index = df.index.filter (fun x => decide (x ≠ l)) ∧ l ∈ df.index := by
  unfold dropRowLabelE at h
  by_cases hl : l ∈ df.index
  · rw [if_pos hl] at h
    have : d' = ⟨df.index.filter (fun x => decide (x ≠ l)),
        df.cols.map (fun p => (p.1, filterAligned df.index p.2 l))⟩ := by
      simpa using h.symm
    subst this
    exact ⟨rfl, hl⟩
  · rw [if_neg hl] at h
    exact absurd h (by simp)

/-! Concrete tables used as test inputs. -/

/-- An auction draft block whose carrier row is `["", "MANAGER_X", ""]`. -/
def tAuction : PyDF :=
  ⟨[0, 1],
   [(.num 0, [.s "", .s "1"]),
    (.num 1, [.s "MANAGER_X", .s "Smith, NYY\u00A0OF"]),
    (.num 2, [.s "", .s "$24"])]⟩

/-- A one-row draft block whose composite cell has no keeper marker. -/
def tKeeperA : PyDF :=
  ⟨[0],
   [(.num 0, [.s "1"]), (.num 1, [.s "Smith, NYY\u00A0OF"]),
    (.num 2, [.s "TeamZ"])]⟩

/-- A one-row draft block whose composite cell carries the trailing
`\xa0\xa0K` keeper marker. -/
def tKeeperB : PyDF :=
  ⟨[0],
   [(.num 0, [.s "1"]), (.num 1, [.s "Smith, NYY\u00A0OF\u00A0\u00A0K"]),
    (.num 2, [.s "TeamZ"])]⟩

/-! Claim C1: length of the two-row header merge. -/

theorem mergeSubHeads_length (r1 r2 : List ColName)
    (h : r2.length + 2 < r1.length) :
    (mergeSubHeads r1 r2).length = r1.length := by
  have hneg : (-((r1.length : Int) - 2 - (r2.length : Int))) < 0 := by omega
  unfold mergeSubHeads pyIntSliceFrom
  rw [if_pos hneg]
  simp only [List.length_append, List.length_take, List.length_drop]
  omega

/-- Claim C1, amended: when the two sub-header rows resolve to rows of
lengths L1 and L2, the merged column list produced by the two-row branch
of `League._parseHeaders` has length exactly L1 provided L2 + 2 < L1.
For L2 = L1 - 2 the slice `subHead1[-0:]` is the whole first row and the
merge has length 2·L1, and for L2 > L1 - 2 the length is also wrong, so
the invariant does not hold for all L1, L2. -/
theorem c1_merge_preserves_row1_length (tds1 tds2 : List Td)
    (h : (parseSubHeadRow tds2 (parseSubHeadRow tds1 10).2).1.length + 2 <
         (parseSubHeadRow tds1 10).1.length) :
    (parseHeadersTwoRow tds1 tds2).length =
      (parseSubHeadRow tds1 10).1.length := by
  unfold parseHeadersTwoRow
  exact mergeSubHeads_length _ _ h

/-- Witness for C1's amended theorem at a concrete 4-cell/1-cell header. -/
theorem c1_merge_preserves_row1_length_witness :
    ((parseSubHeadRow [Td.mk none ["e"]]
        (parseSubHeadRow [Td.mk none ["a"], Td.mk none ["b"],
          Td.mk none ["c"], Td.mk none ["d"]] 10).2).1.length + 2 <
      (parseSubHeadRow [Td.mk none ["a"], Td.mk none ["b"],
        Td.mk none ["c"], Td.mk none ["d"]] 10).1.length) ∧
    (parseHeadersTwoRow
        [Td.mk none ["a"], Td.mk none ["b"], Td.mk none ["c"],
         Td.mk none ["d"]] [Td.mk none ["e"]]).length =
      (parseSubHeadRow [Td.mk none ["a"], Td.mk none ["b"],
        Td.mk none ["c"], Td.mk none ["d"]] 10).1.length :=
  ⟨by decide,
   c1_merge_preserves_row1_length _ _ (by decide)⟩

/-- Counterexample to C1 as stated: a first row resolving to 3 names and
a second row resolving to 1 name (so L2 = L1 - 2) merge to 6 columns,
not L1 = 3. -/
theorem c1_merge_length_counterexample :
    (parseSubHeadRow [Td.mk none ["x"], Td.mk none ["y"],
        Td.mk none ["z"]] 10).1.length = 3 ∧
    (parseSubHeadRow [Td.mk none ["B"]]
        (parseSubHeadRow [Td.mk none ["x"], Td.mk none ["y"],
          Td.mk none ["z"]] 10).2).1.length = 1 ∧
    (parseHeadersTwoRow [Td.mk none ["x"], Td.mk none ["y"],
        Td.mk none ["z"]] [Td.mk none ["B"]]).length = 6 := by
  decide

/-! Claim C10: uniqueness of resolved column names. -/

/-- Claim C10, amended: a sub-header cell with text and a column-span
attribute N contributes N copies of a single synthetic placeholder name
and advances the `noname` counter once (not N times), so the resolved
column list carries duplicate names whenever N is at least 2.  Padding
cells without text do consume one fresh counter value each. -/
theorem c10_colspan_single_counter (n k : Nat) (ts : List String)
    (rest : List Td) (h : ts ≠ []) :
    (parseSubHeadRow (Td.mk (some n) ts :: rest) k).1 =
      List.replicate n (ColName.synth k) ++
        (parseSubHeadRow rest (k + 1)).1 ∧
    (parseSubHeadRow (Td.mk (some n) ts :: rest) k).2 =
      (parseSubHeadRow rest (k + 1)).2 := by
  simp only [parseSubHeadRow]
  simp [parseTd, h]

/-- Witness for C10's amended theorem: a colspan-3 group title. -/
theorem c10_colspan_single_counter_witness :
    (["T"] ≠ ([] : List String)) ∧
    ((parseSubHeadRow [Td.mk (some 3) ["T"]] 10).1 =
        List.replicate 3 (ColName.synth 10) ++
          (parseSubHeadRow [] (10 + 1)).1 ∧
      (parseSubHeadRow [Td.mk (some 3) ["T"]] 10).2 =
        (parseSubHeadRow [] (10 + 1)).2) :=
  ⟨by decide, c10_colspan_single_counter 3 10 ["T"] [] (by decide)⟩

/-- Counterexample to C10 as stated: a colspan-2 cell produces two equal
placeholder names, so the resolved header contains duplicates. -/
theorem c10_duplicate_names_counterexample :
    parseHeadersTwoRow
        [Td.mk (some 2) ["MISC"], Td.mk none ["x"], Td.mk none ["y"],
         Td.mk none ["z"]] [Td.mk none ["B"]] =
      [.synth 10, .synth 10, .real "B", .real "y", .real "z"] ∧
    ¬ (parseHeadersTwoRow
        [Td.mk (some 2) ["MISC"], Td.mk none ["x"], Td.mk none ["y"],
         Td.mk none ["z"]] [Td.mk none ["B"]]).Nodup := by
  decide

/-! Claim C2: behaviour on unsupported draft types. -/

/-- Claim C2, amended: `League._formatDraft` has no `else` branch, so for
every draft-type string outside {Auction Draft, Snake Draft, Offline
Draft, Autopick Draft} it silently returns `None`; no
`UnsupportedDraftTypeError` (or any other exception) is raised, and no
table is produced. -/
theorem c2_unknown_draft_type_returns_none (df : PyDF) (s : String)
    (h1 : s ≠ "Auction Draft") (h2 : s ≠ "Snake Draft")
    (h3 : s ≠ "Offline Draft") (h4 : s ≠ "Autopick Draft") :
    formatDraft df s = .ok none := by
  have h5 : ¬(s = "Snake Draft" ∨ s = "Offline Draft" ∨
      s = "Autopick Draft") := by
    push_neg
    exact ⟨h2, h3, h4⟩
  unfold formatDraft
  rw [if_neg h1, if_neg h5]

/-- Witness for C2's amended theorem at the string "Linear Draft". -/
theorem c2_unknown_draft_type_returns_none_witness :
    ("Linear Draft" ≠ "Auction Draft") ∧
    ("Linear Draft" ≠ "Snake Draft") ∧
    ("Linear Draft" ≠ "Offline Draft") ∧
    ("Linear Draft" ≠ "Autopick Draft") ∧
    formatDraft tKeeperA "Linear Draft" = .ok none :=
  ⟨by decide, by decide, by decide, by decide,
   c2_unknown_draft_type_returns_none tKeeperA "Linear Draft"
     (by decide) (by decide) (by decide) (by decide)⟩

/-- Counterexample to C2 as stated: on the unsupported draft type
"Keeper Draft" the dispatch returns `Ok None` — the Python function
returns `None` — rather than raising a typed error. -/
theorem c2_no_error_counterexample :
    formatDraft tKeeperB "Keeper Draft" = .ok none := by
  decide

/-! Claim C3: the snake/offline/autopick draft formatter. -/

/-- Claim C3 records the intended behaviour of `League._formatDraftTable`,
but the function's parameter is named `html` while every statement of its
body refers to the unbound name `df`, so on every input the function
raises `NameError` instead of producing the ROUND/PICK/MANAGER/... table
(a slip contradicting its own docstring, which promises a formatted
dataframe as output). -/
theorem c3_formatDraftTable_raises_nameError (html : PyDF) :
    formatDraftTable html = .error (.nameError "df") := rfl

/-! Claim C9: keeper extraction on concrete composites. -/

/-- Claim C9: on the composite `"Smith, NYY\xa0OF"` (non-breaking space
before the position) the Player/Team/Position/Keeper extraction of
`League._formatAuctionDraftTable` yields PLAYER="Smith", TEAM="NYY",
POS="OF", KEEPER=False, and with the trailing `"\xa0\xa0K"` keeper
marker the same fields with KEEPER=True. -/
theorem c9_keeper_extraction :
    formatAuctionDraftTable tKeeperA = .ok ⟨[0],
      [(.str "PLAYER", [.s "Smith"]), (.str "TEAM", [.s "NYY"]),
       (.str "POS", [.s "OF"]), (.str "KEEPER", [.b false])]⟩ ∧
    formatAuctionDraftTable tKeeperB = .ok ⟨[0],
      [(.str "PLAYER", [.s "Smith"]), (.str "TEAM", [.s "NYY"]),
       (.str "POS", [.s "OF"]), (.str "KEEPER", [.b true])]⟩ :=
  ⟨rfl, rfl⟩

/-! Structural facts about the formatter building blocks. -/

theorem joinColsE_ok (df d' : PyDF) (new : List (ColKey × List PyVal))
    (h : joinColsE df new = .ok d') :
    d' = ⟨df.index, df.cols ++ new⟩ ∧ ∀ p ∈ new, getCol df p.1 = none := by
  unfold joinColsE at h
  by_cases hg : new.any (fun p => (getCol df p.1).isSome)
  · rw [if_pos hg] at h
    cases h
  · rw [if_neg hg] at h
    refine ⟨by simpa using h.symm, ?_⟩
    intro p hp
    rw [List.any_eq_true] at hg
    push_neg at hg
    have hps := hg p hp
    cases hgc : getCol df p.1 with
    | none => rfl
    | some v => rw [hgc] at hps; simp at hps

theorem dropColsE_ok (df d' : PyDF) (keys : List ColKey)
    (h : dropColsE df keys = .ok d') :
    d' = ⟨df.index, dropColsIn df.cols keys⟩ := by
  unfold dropColsE at h
  by_cases hg : keys.all (fun k => (getCol df k).isSome)
  · rw [if_pos hg] at h
    simpa using h.symm
  · rw [if_neg hg] at h
    cases h

theorem findColIn_dropRowMap (cols : List (ColKey × List PyVal))
    (idx : List Nat) (l : Nat) (k : ColKey) :
    findColIn (cols.map (fun p => (p.1, filterAligned idx p.2 l))) k =
      (findColIn cols k).map (fun v => filterAligned idx v l) := by
  induction cols with
  | nil => simp [findColIn]
  | cons p t ih =>
      obtain ⟨pk, pv⟩ := p
      by_cases hk : k = pk
      · subst hk
        simp [findColIn]
      · simp [findColIn, hk, ih]

theorem dropRowLabelE_getCol (df d' : PyDF) (l : Nat) (col : List PyVal)
    (k : ColKey) (h : dropRowLabelE df l = .ok d')
    (hk : getCol df k = some col) :
    getCol d' k = some (filterAligned df.index col l) := by
  unfold dropRowLabelE at h
  by_cases hl : l ∈ df.index
  · rw [if_pos hl] at h
    have hd : d' = ⟨df.index.filter (fun x => decide (x ≠ l)),
        df.cols.map (fun p => (p.1, filterAligned df.index p.2 l))⟩ := by
      simpa using h.symm
    subst hd
    show findColIn (df.cols.map (fun p => (p.1, filterAligned df.index p.2 l))) k = _
    rw [findColIn_dropRowMap]
    show (getCol df k).map _ = _
    rw [hk]
    rfl
  · rw [if_neg hl] at h
    cases h

/-- The extraction/join step of `_formatAuctionDraftTable` leaves every
column other than KEEPER and the dropped raw columns 0, 1, 2 exactly as it
was, and preserves the row index. -/
theorem formatAuctionDraftTable_preserves (df out : PyDF) (k : ColKey)
    (h : formatAuctionDraftTable df = .ok out)
    (hk1 : k ≠ .str "KEEPER")
    (hnum : k ∉ [ColKey.num 0, ColKey.num 1, ColKey.num 2])
    (hsome : (getCol df k).isSome) :
    getCol out k = getCol df k ∧ out.index = df.index := by
  unfold formatAuctionDraftTable at h
  split at h
  · cases h
  · rename_i c1 hc1
    split at h
    · cases h
    · rename_i dfj hj
      obtain ⟨hdfj, _⟩ := joinColsE_ok _ _ _ hj
      subst hdfj
      have hout := dropColsE_ok _ _ _ h
      subst hout
      obtain ⟨v, hv⟩ := Option.isSome_iff_exists.mp hsome
      constructor
      · show findColIn (dropColsIn (mapColVals _ _ _).cols _) k = _
        rw [show (mapColVals ⟨df.index, df.cols ++ _⟩ (.str "KEEPER")
              keeperFix).cols = mapColsIn (df.cols ++ _) (.str "KEEPER")
              keeperFix from rfl]
        rw [findColIn_dropColsIn _ _ _ hnum,
            findColIn_mapColsIn_other _ _ _ _ hk1]
        show findColIn (df.cols ++ _) k = _
        rw [findColIn_append_left _ _ _ _ hv, hv]
      · rfl

/-! Claim C4: auction MANAGER propagation. -/

/-- Claim C4, amended: `League._formatAuctionTable` propagates the first
row's FIRST cell (`df[0].ix[0]`, the value at column 0 of the row
labelled 0) — not the second cell — as the MANAGER value of every
remaining row, and the carrier row's label does not survive into the
output index.  On a block whose first row is `["", "MANAGER_X", ...]` the
propagated manager is therefore the empty string, not MANAGER_X. -/
theorem c4_auction_manager_from_first_cell (df res post : PyDF) (m : PyVal)
    (h : formatAuctionTable df = .ok (res, post))
    (hm : ixLabel df (.num 0) 0 = .ok m) :
    getCol res (.str "MANAGER") =
      some (List.replicate
        (df.index.filter (fun x => decide (x ≠ 0))).length m) ∧
    res.index = df.index.filter (fun x => decide (x ≠ 0)) := by
  unfold formatAuctionTable at h
  split at h
  · cases h
  · rename_i manager hman
    rw [hm] at hman
    have hmm : m = manager := Except.ok.inj hman
    subst hmm
    split at h
    · cases h
    · rename_i df2 hdrop
      split at h
      · cases h
      · rename_i c0 hc0
        split at h
        · cases h
        · rename_i pick hpick
          split at h
          · cases h
          · rename_i c2 hc2
            split at h
            · cases h
            · rename_i c2t hc2t
              split at h
              · cases h
              · rename_i price hprice
                split at h
                · cases h
                · rename_i out hadt
                  split at h
                  · cases h
                  · rename_i res0 hsel
                    have hpair := Except.ok.inj h
                    have hres : res0 = res := congrArg Prod.fst hpair
                    have hpost : auctionPost df2 pick price = post :=
                      congrArg Prod.snd hpair
                    subst hres
                    have hg1 : getCol (setColScalar df (.str "MANAGER") m)
                        (.str "MANAGER") =
                        some (List.replicate df.index.length m) :=
                      getCol_setColList_self df (.str "MANAGER") _
                    have hg2 := dropRowLabelE_getCol _ _ 0 _ (.str "MANAGER")
                      hdrop hg1
                    rw [show (setColScalar df (.str "MANAGER") m).index =
                          df.index from rfl,
                        filterAligned_replicate] at hg2
                    have hg3 : getCol (auctionPost df2 pick price)
                        (.str "MANAGER") = getCol df2 (.str "MANAGER") := by
                      unfold auctionPost
                      rw [getCol_setColList_other _ _ _ _ (by decide),
                          getCol_setColList_other _ _ _ _ (by decide)]
                    have hsome : (getCol (auctionPost df2 pick price)
                        (.str "MANAGER")).isSome := by
                      rw [hg3, hg2]
                      rfl
                    obtain ⟨hout, houtidx⟩ :=
                      formatAuctionDraftTable_preserves _ _ (.str "MANAGER")
                        hadt (by decide) (by decide) hsome
                    have hfinal : getCol res0 (.str "MANAGER") =
                        getCol df2 (.str "MANAGER") := by
                      rw [selectColsE_ok_getCol _ _ _ _ hsel (by decide),
                          hout, hg3]
                    have hidx2 : df2.index =
                        df.index.filter (fun x => decide (x ≠ 0)) := by
                      have := (dropRowLabelE_ok _ _ _ hdrop).1
                      rw [show (setColScalar df (.str "MANAGER") m).index =
                            df.index from rfl] at this
                      exact this
                    refine ⟨?_, ?_⟩
                    · rw [hfinal, hg2]
                    · rw [selectColsE_ok_index _ _ _ hsel, houtidx]
                      show df2.index = _
                      exact hidx2

/-! Claim C5: formatting mutates its input. -/

/-- Claim C5, amended: auction formatting is a deterministic function of
the input value, but it mutates the passed RawTable in place (the MANAGER
broadcast, the carrier-row drop and the PICK/PRICE assignments act on the
caller's object), so the post-call state always differs from the
original; a second call on that same mutated object does not reproduce
the result but raises `KeyError` (the carrier row label 0 it tries to
read was already dropped). -/
theorem c5_format_auction_mutates (df res post : PyDF)
    (h : formatAuctionTable df = .ok (res, post)) :
    post ≠ df ∧ formatAuctionTable post = .error .keyError := by
  unfold formatAuctionTable at h
  split at h
  · cases h
  · rename_i manager hman
    have h0mem : (0 : Nat) ∈ df.index := ixLabel_mem df _ 0 manager hman
    split at h
    · cases h
    · rename_i df2 hdrop
      split at h
      · cases h
      · rename_i c0 hc0
        split at h
        · cases h
        · rename_i pick hpick
          split at h
          · cases h
          · rename_i c2 hc2
            split at h
            · cases h
            · rename_i c2t hc2t
              split at h
              · cases h
              · rename_i price hprice
                split at h
                · cases h
                · rename_i out hadt
                  split at h
                  · cases h
                  · rename_i res0 hsel
                    have hpair := Except.ok.inj h
                    have hpost : auctionPost df2 pick price = post :=
                      congrArg Prod.snd hpair
                    have hidx2 : df2.index =
                        df.index.filter (fun x => decide (x ≠ 0)) := by
                      have := (dropRowLabelE_ok _ _ _ hdrop).1
                      rw [show (setColScalar df (.str "MANAGER")
                            manager).index = df.index from rfl] at this
                      exact this
                    have hpidx : post.index =
                        df.index.filter (fun x => decide (x ≠ 0)) := by
                      rw [← hpost]
                      show df2.index = _
                      exact hidx2
                    have h0not : (0 : Nat) ∉ post.index := by
                      rw [hpidx]
                      simp
                    refine ⟨?_, ?_⟩
                    · intro heq
                      rw [heq] at h0not
                      exact h0not h0mem
                    · have habs := ixLabel_absent post (.num 0) 0 h0not
                      unfold formatAuctionTable
                      rw [habs]

/-- The result frame of `formatAuctionTable tAuction`. -/
def tAuctionRes : PyDF :=
  ⟨[1],
   [(.str "MANAGER", [.s ""]), (.str "PLAYER", [.s "Smith"]),
    (.str "PICK", [.num 1]), (.str "TEAM", [.s "NYY"]),
    (.str "POS", [.s "OF"]), (.str "PRICE", [.num 24]),
    (.str "KEEPER", [.b false])]⟩

/-- The post-call state of the `tAuction` argument: carrier row dropped,
MANAGER/PICK/PRICE columns added in place. -/
def tAuctionPost : PyDF :=
  ⟨[1],
   [(.num 0, [.s "1"]), (.num 1, [.s "Smith, NYY\u00A0OF"]),
    (.num 2, [.s "$24"]), (.str "MANAGER", [.s ""]),
    (.str "PICK", [.num 1]), (.str "PRICE", [.num 24])]⟩

/-- Witness for C4's amended theorem at the concrete block `tAuction`. -/
theorem c4_auction_manager_witness :
    (formatAuctionTable tAuction = .ok (tAuctionRes, tAuctionPost) ∧
     ixLabel tAuction (.num 0) 0 = .ok (.s "")) ∧
    (getCol tAuctionRes (.str "MANAGER") =
       some (List.replicate
         (tAuction.index.filter (fun x => decide (x ≠ 0))).length
         (.s "")) ∧
     tAuctionRes.index =
       tAuction.index.filter (fun x => decide (x ≠ 0))) :=
  ⟨⟨by decide, by decide⟩,
   c4_auction_manager_from_first_cell tAuction tAuctionRes tAuctionPost
     (.s "") (by decide) (by decide)⟩

/-- Counterexample to C4 as stated: on the block whose first row is
`["", "MANAGER_X", ""]` the MANAGER column of the output holds the empty
string (the first cell of the carrier row), not MANAGER_X. -/
theorem c4_empty_manager_counterexample :
    (formatAuctionTable tAuction).toOption.map
        (fun x => getCol x.1 (.str "MANAGER")) = some (some [PyVal.s ""]) ∧
    some (some [PyVal.s "MANAGER_X"]) ≠
      (formatAuctionTable tAuction).toOption.map
        (fun x => getCol x.1 (.str "MANAGER")) := by
  decide

/-- Witness for C5's amended theorem at the concrete block `tAuction`. -/
theorem c5_format_auction_mutates_witness :
    (formatAuctionTable tAuction = .ok (tAuctionRes, tAuctionPost)) ∧
    (tAuctionPost ≠ tAuction ∧
     formatAuctionTable tAuctionPost = .error .keyError) :=
  ⟨by decide,
   c5_format_auction_mutates tAuction tAuctionRes tAuctionPost (by decide)⟩

/-- Counterexample to C5 as stated: the first call succeeds but leaves the
input object in a different state, and the second call on that same
object does not produce identical content — it raises `KeyError`. -/
theorem c5_rerun_counterexample :
    formatAuctionTable tAuction = .ok (tAuctionRes, tAuctionPost) ∧
    tAuctionPost ≠ tAuction ∧
    formatAuctionTable tAuctionPost = .error .keyError := by
  decide

/-! Claim C7: soft per-row extraction. -/

/-- Claim C7, amended: in the auction-draft formatter the extraction is
soft per row — a row whose composite text fails the pattern receives NaN
in all four derived columns (PLAYER, TEAM, POS, KEEPER) while formatting
completes for the table.  (In the ActiveStats formatter this is not true:
the failed row's NaN POS makes the subsequent `split` step raise
`AttributeError` and abort the whole table.) -/
theorem c7_soft_row_extraction (df : PyDF) (c1 : List PyVal) (res : PyDF)
    (i : Nat) (s : String)
    (h1 : getCol df (.num 1) = some c1)
    (h : formatAuctionDraftTable df = .ok res)
    (hrow : c1.get? i = some (.s s))
    (hfail : extractPTPK s = none) :
    (getCol res (.str "PLAYER")).bind (fun col => col.get? i) = some .nan ∧
    (getCol res (.str "TEAM")).bind (fun col => col.get? i) = some .nan ∧
    (getCol res (.str "POS")).bind (fun col => col.get? i) = some .nan ∧
    (getCol res (.str "KEEPER")).bind (fun col => col.get? i) = some .nan := by
  unfold formatAuctionDraftTable at h
  split at h
  · cases h
  · rename_i c1' hc1
    rw [h1] at hc1
    have hcc : c1 = c1' := Option.some.inj hc1
    subst hcc
    split at h
    · cases h
    · rename_i dfj hj
      obtain ⟨hdfj, hnone⟩ := joinColsE_ok _ _ _ hj
      subst hdfj
      have hout := dropColsE_ok _ _ _ h
      subst hout
      have hP : getCol df (.str "PLAYER") = none :=
        hnone (ColKey.str "PLAYER",
          (c1.map (pvalExtract extractPTPK)).map (fun g => g.1))
          (by simp [draftExtractCols])
      have hT : getCol df (.str "TEAM") = none :=
        hnone (ColKey.str "TEAM",
          (c1.map (pvalExtract extractPTPK)).map (fun g => g.2.1))
          (by simp [draftExtractCols])
      have hPo : getCol df (.str "POS") = none :=
        hnone (ColKey.str "POS",
          (c1.map (pvalExtract extractPTPK)).map (fun g => g.2.2.1))
          (by simp [draftExtractCols])
      have hK : getCol df (.str "KEEPER") = none :=
        hnone (ColKey.str "KEEPER",
          (c1.map (pvalExtract extractPTPK)).map (fun g => g.2.2.2))
          (by simp [draftExtractCols])
      refine ⟨?_, ?_, ?_, ?_⟩
      · show (findColIn (dropColsIn (mapColVals _ _ _).cols _)
            (.str "PLAYER")).bind _ = _
        rw [show (mapColVals ⟨df.index, df.cols ++ draftExtractCols c1⟩
              (.str "KEEPER") keeperFix).cols =
            mapColsIn (df.cols ++ draftExtractCols c1) (.str "KEEPER")
              keeperFix from rfl]
        rw [findColIn_dropColsIn _ _ _ (by decide),
            findColIn_mapColsIn_other _ _ _ _ (by decide),
            findColIn_append_none _ _ _ hP]
        show ((c1.map (pvalExtract extractPTPK)).map (fun g => g.1)).get? i
            = some PyVal.nan
        rw [List.map_map, List.get?_map, hrow]
        simp [pvalExtract, hfail]
      · show (findColIn (dropColsIn (mapColVals _ _ _).cols _)
            (.str "TEAM")).bind _ = _
        rw [show (mapColVals ⟨df.index, df.cols ++ draftExtractCols c1⟩
              (.str "KEEPER") keeperFix).cols =
            mapColsIn (df.cols ++ draftExtractCols c1) (.str "KEEPER")
              keeperFix from rfl]
        rw [findColIn_dropColsIn _ _ _ (by decide),
            findColIn_mapColsIn_other _ _ _ _ (by decide),
            findColIn_append_none _ _ _ hT]
        show ((c1.map (pvalExtract extractPTPK)).map (fun g => g.2.1)).get? i
            = some PyVal.nan
        rw [List.map_map, List.get?_map, hrow]
        simp [pvalExtract, hfail]
      · show (findColIn (dropColsIn (mapColVals _ _ _).cols _)
            (.str "POS")).bind _ = _
        rw [show (mapColVals ⟨df.index, df.cols ++ draftExtractCols c1⟩
              (.str "KEEPER") keeperFix).cols =
            mapColsIn (df.cols ++ draftExtractCols c1) (.str "KEEPER")
              keeperFix from rfl]
        rw [findColIn_dropColsIn _ _ _ (by decide),
            findColIn_mapColsIn_other _ _ _ _ (by decide),
            findColIn_append_none _ _ _ hPo]
        show ((c1.map (pvalExtract extractPTPK)).map
            (fun g => g.2.2.1)).get? i = some PyVal.nan
        rw [List.map_map, List.get?_map, hrow]
        simp [pvalExtract, hfail]
      · show (findColIn (dropColsIn (mapColVals _ _ _).cols _)
            (.str "KEEPER")).bind _ = _
        rw [show (mapColVals ⟨df.index, df.cols ++ draftExtractCols c1⟩
              (.str "KEEPER") keeperFix).cols =
            mapColsIn (df.cols ++ draftExtractCols c1) (.str "KEEPER")
              keeperFix from rfl]
        rw [findColIn_dropColsIn _ _ _ (by decide),
            findColIn_mapColsIn_same,
            findColIn_append_none _ _ _ hK]
        show (((c1.map (pvalExtract extractPTPK)).map
            (fun g => g.2.2.2)).map keeperFix).get? i = some PyVal.nan
        rw [List.map_map, List.map_map, List.get?_map, hrow]
        simp [pvalExtract, hfail, keeperFix, keeperMark, pyTruthy]

/-- A draft block whose first row's composite cell does not match the
pattern and whose second row does. -/
def tMixed : PyDF :=
  ⟨[0, 1],
   [(.num 0, [.s "1", .s "2"]),
    (.num 1, [.s "zz-not-a-composite", .s "Smith, NYY\u00A0OF"]),
    (.num 2, [.s "x", .s "y"])]⟩

/-- The output of `formatAuctionDraftTable tMixed`: the unmatched row
keeps NaN in all derived columns, the matched row is extracted. -/
def tMixedRes : PyDF :=
  ⟨[0, 1],
   [(.str "PLAYER", [.nan, .s "Smith"]),
    (.str "TEAM", [.nan, .s "NYY"]),
    (.str "POS", [.nan, .s "OF"]),
    (.str "KEEPER", [.nan, .b false])]⟩

/-- Witness for C7's amended theorem: a concrete two-row block with one
unmatched composite; formatting completes and the unmatched row carries
NaN in all four derived columns. -/
theorem c7_soft_row_extraction_witness :
    (getCol tMixed (.num 1) =
       some [.s "zz-not-a-composite", .s "Smith, NYY\u00A0OF"] ∧
     formatAuctionDraftTable tMixed = .ok tMixedRes ∧
     ([PyVal.s "zz-not-a-composite",
       PyVal.s "Smith, NYY\u00A0OF"].get? 0 =
         some (.s "zz-not-a-composite")) ∧
     extractPTPK "zz-not-a-composite" = none) ∧
    ((getCol tMixedRes (.str "PLAYER")).bind
        (fun col => col.get? 0) = some .nan ∧
     (getCol tMixedRes (.str "TEAM")).bind
        (fun col => col.get? 0) = some .nan ∧
     (getCol tMixedRes (.str "POS")).bind
        (fun col => col.get? 0) = some .nan ∧
     (getCol tMixedRes (.str "KEEPER")).bind
        (fun col => col.get? 0) = some .nan) :=
  ⟨⟨by decide, by decide, by decide, by decide⟩,
   c7_soft_row_extraction tMixed
     [.s "zz-not-a-composite", .s "Smith, NYY\u00A0OF"]
     tMixedRes 0 "zz-not-a-composite"
     (by decide) (by decide) (by decide) (by decide)⟩

/-- An active-stats table (three columns, numeric third column) whose
first body row's composite cell fails the extraction pattern. -/
def tStatsBad : PyDF :=
  ⟨[0, 1, 2],
   [(statsCompositeKey, [.s "Junk", .s "Smith, NYY\u00A0OF", .s "Totals"]),
    (.str "AB", [.num 4, .num 5, .num 6]),
    (.str "R", [.num 1, .num 2, .num 3])]⟩

/-- Counterexample to C7 as stated: in the ActiveStats formatter a single
row whose composite text fails the pattern leaves POS as NaN and the
subsequent `x.split(', ')` raises `AttributeError`, aborting the whole
table instead of completing with missing values. -/
theorem c7_activestats_abort_counterexample :
    extractPTPD "Junk" = none ∧
    formatActiveStatsTable tStatsBad = .error .attributeError := by
  decide

/-! Claim C6: the guarded dash replacement of the ActiveStats formatter. -/

theorem replaceDash_skip (df1 : PyDF) (p2 : ColKey × List PyVal)
    (hget2 : df1.cols.get? 2 = some p2) (hdt : dtypeObject p2.2 = false) :
    replaceDashRowsE df1 = .ok df1 := by
  unfold replaceDashRowsE
  rw [hget2]
  simp [hdt]

theorem findColIn_coerce (cols : List (ColKey × List PyVal)) (k : ColKey) :
    findColIn (cols.map (fun p => (p.1, coerceCol p.2))) k =
      (findColIn cols k).map coerceCol := by
  induction cols with
  | nil => simp [findColIn]
  | cons p t ih =>
      obtain ⟨pk, pv⟩ := p
      by_cases hk : k = pk
      · subst hk
        simp [findColIn]
      · simp [findColIn, hk, ih]

theorem mapM_except_ok_forall (f : PyVal → Except PyErr PyVal)
    (l l' : List PyVal) (h : mapME f l = .ok l') :
    ∀ x ∈ l, ∃ y, f x = .ok y := by
  induction l generalizing l' with
  | nil => simp
  | cons a t ih =>
      unfold mapME at h
      cases hfa : f a with
      | error e => rw [hfa] at h; cases h
      | ok y =>
          rw [hfa] at h
          cases hrest : mapME f t with
          | error e => rw [hrest] at h; cases h
          | ok ys =>
              rw [hrest] at h
              intro x hx
              cases List.mem_cons.mp hx with
              | inl hxa => exact ⟨y, hxa ▸ hfa⟩
              | inr hxt => exact ih ys hrest x hxt

/-- A column that still holds a literal `"--"` cell cannot be converted
by `pd.to_numeric`, so `errors='ignore'` leaves it untouched. -/
theorem coerceCol_of_dash (col : List PyVal) (i : Nat)
    (hcell : col.get? i = some (.s "--")) : coerceCol col = col := by
  unfold coerceCol
  cases ht : toNumericColE col with
  | error e => rfl
  | ok col' =>
      exfalso
      have hmem : PyVal.s "--" ∈ col := List.get?_mem hcell
      obtain ⟨y, hy⟩ := mapM_except_ok_forall toNumericVal col col' ht _ hmem
      rw [show toNumericVal (.s "--") = .error .valueError from rfl] at hy
      cases hy

theorem findColIn_keepNotUnnamed (cols : List (ColKey × List PyVal))
    (ks : String) (hks : unnamedSearch ks = false) :
    findColIn (keepNotUnnamed cols) (.str ks) =
      findColIn cols (.str ks) := by
  induction cols with
  | nil => simp [keepNotUnnamed]
  | cons p t ih =>
      obtain ⟨pk, pv⟩ := p
      cases pk with
      | str s =>
          by_cases hs : unnamedSearch s
          · have hne : ColKey.str ks ≠ ColKey.str s := by
              intro heq
              rw [show ks = s from by injection heq] at hks
              rw [hks] at hs
              cases hs
            simp [keepNotUnnamed, hs, findColIn, hne, ih]
          · by_cases hke : ColKey.str ks = ColKey.str s
            · simp [keepNotUnnamed, hs, findColIn, hke]
            · simp [keepNotUnnamed, hs, findColIn, hke, ih]
      | num n =>
          have hne : ColKey.str ks ≠ ColKey.num n := by
            intro heq
            cases heq
          simp [keepNotUnnamed, findColIn, hne, ih]

theorem mapColValsE_getCol_other (d d' : PyDF) (k k' : ColKey)
    (f : PyVal → Except PyErr PyVal)
    (h : mapColValsE d k f = .ok d') (hk : k' ≠ k) :
    getCol d' k' = getCol d k' := by
  unfold mapColValsE at h
  split at h
  · cases h
  · rename_i col hcol
    split at h
    · cases h
    · rename_i col' hmap
      have hd' : setColList d k col' = d' := Except.ok.inj h
      rw [← hd']
      exact getCol_setColList_other d k k' col' hk

theorem selectNotUnnamedE_getCol (d r : PyDF) (ks : String)
    (h : selectNotUnnamedE d = .ok r) (hks : unnamedSearch ks = false) :
    getCol r (.str ks) = getCol d (.str ks) := by
  unfold selectNotUnnamedE at h
  by_cases hall : d.cols.all (fun p => isStrKey p.1)
  · rw [if_pos hall] at h
    have hr : r = ⟨d.index, keepNotUnnamed d.cols⟩ := by simpa using h.symm
    subst hr
    exact findColIn_keepNotUnnamed d.cols ks hks
  · rw [if_neg hall] at h
    cases h

/-- Claim C6, amended: in `League._formatActiveStatsTable` the `"--"`
replacement is guarded — it runs only when the column at position 2 has
object dtype, and then only on the rows whose position-2 cell is `"--"`.
When the position-2 column is numeric the replacement is skipped
entirely, so a `"--"` placeholder in any other column survives into the
output as a text cell (not a missing value, not a number), and its whole
column — having a non-numeric cell — is left as text by the
`errors='ignore'` coercion. -/
theorem c6_dash_survives_unflagged (df df1 res : PyDF)
    (p2 : ColKey × List PyVal) (ks : String) (col : List PyVal) (i : Nat)
    (h : formatActiveStatsTable df = .ok res)
    (hd : dropRowLabelE df (df.index.length - 1) = .ok df1)
    (hget2 : df1.cols.get? 2 = some p2)
    (hdt : dtypeObject p2.2 = false)
    (hks : unnamedSearch ks = false)
    (hkc : ColKey.str ks ≠ statsCompositeKey)
    (hcol : getCol df1 (.str ks) = some col)
    (hcell : col.get? i = some (.s "--")) :
    getCol res (.str ks) = some col := by
  unfold formatActiveStatsTable at h
  split at h
  · cases h
  · rename_i df1' hd'
    rw [hd] at hd'
    have hdd : df1 = df1' := Except.ok.inj hd'
    subst hdd
    split at h
    · cases h
    · rename_i df2 hrep
      rw [replaceDash_skip df1 p2 hget2 hdt] at hrep
      have hdd2 : df1 = df2 := Except.ok.inj hrep
      subst hdd2
      split at h
      · cases h
      · rename_i c hcomp
        split at h
        · cases h
        · rename_i df4 hj
          obtain ⟨hdfj, hnone⟩ := joinColsE_ok _ _ _ hj
          subst hdfj
          split at h
          · cases h
          · rename_i df5 hdrop5
            have hdf5 := dropColsE_ok _ _ _ hdrop5
            subst hdf5
            split at h
            · cases h
            · rename_i df6 hmap
              have hcoerce : getCol (coerceStage df1) (.str ks) =
                  some (coerceCol col) := by
                show findColIn (df1.cols.map
                    (fun p => (p.1, coerceCol p.2))) (.str ks) = _
                rw [findColIn_coerce]
                show (getCol df1 (.str ks)).map coerceCol = _
                rw [hcol]
                rfl
              have hksPos : ColKey.str ks ≠ ColKey.str "POS" := by
                intro heq
                have h1 : getCol (coerceStage df1) (ColKey.str "POS") =
                    none :=
                  hnone (ColKey.str "POS",
                    (c.map (pvalExtract extractPTPD)).map
                      (fun g => g.2.2.1))
                    (by simp [statsExtractCols])
                rw [heq, h1] at hcoerce
                cases hcoerce
              rw [selectNotUnnamedE_getCol _ _ _ h hks,
                  mapColValsE_getCol_other _ _ _ _ _ hmap hksPos]
              show findColIn (dropColsIn _ _) (.str ks) = _
              rw [findColIn_dropColsIn _ _ _ (by
                    intro hmem
                    cases List.mem_singleton.mp hmem |> (fun hh =>
                      hkc hh))]
              show findColIn ((coerceStage df1).cols ++
                  statsExtractCols c) (.str ks) = _
              rw [findColIn_append_left _ _ _ _ hcoerce,
                  coerceCol_of_dash col i hcell]

/-- An active-stats page body: composite name column, an AB column whose
first cell is the `"--"` placeholder, a fully numeric R column at
position 2, an HR column, and a trailing totals/footer row. -/
def tStats : PyDF :=
  ⟨[0, 1, 2],
   [(statsCompositeKey,
     [.s "Smith, NYY OF", .s "Jones, BOS 1B", .s "Totals"]),
    (.str "AB", [.s "--", .s "3", .s "12"]),
    (.str "R", [.num 2, .num 1, .num 5]),
    (.str "HR", [.num 1, .num 0, .num 1])]⟩

/-- `tStats` after the footer-row drop. -/
def tStatsDrop : PyDF :=
  ⟨[0, 1],
   [(statsCompositeKey,
     [.s "Smith, NYY OF", .s "Jones, BOS 1B"]),
    (.str "AB", [.s "--", .s "3"]),
    (.str "R", [.num 2, .num 1]),
    (.str "HR", [.num 1, .num 0])]⟩

/-- The output of `formatActiveStatsTable tStats`. -/
def tStatsRes : PyDF :=
  ⟨[0, 1],
   [(.str "AB", [.s "--", .s "3"]),
    (.str "R", [.num 2, .num 1]),
    (.str "HR", [.num 1, .num 0]),
    (.str "PLAYER", [.s "Smith", .s "Jones"]),
    (.str "TEAM", [.s "NYY", .s "BOS"]),
    (.str "POS", [.lst ["OF"], .lst ["1B"]]),
    (.str "DTD", [.s "", .s ""])]⟩

/-- Witness for C6's amended theorem: the concrete table `tStats`. -/
theorem c6_dash_survives_unflagged_witness :
    (formatActiveStatsTable tStats = .ok tStatsRes ∧
     dropRowLabelE tStats (tStats.index.length - 1) = .ok tStatsDrop ∧
     tStatsDrop.cols.get? 2 = some (.str "R", [.num 2, .num 1]) ∧
     dtypeObject [PyVal.num 2, PyVal.num 1] = false ∧
     unnamedSearch "AB" = false ∧
     ColKey.str "AB" ≠ statsCompositeKey ∧
     getCol tStatsDrop (.str "AB") = some [.s "--", .s "3"] ∧
     ([PyVal.s "--", PyVal.s "3"].get? 0 = some (.s "--"))) ∧
    getCol tStatsRes (.str "AB") = some [.s "--", .s "3"] :=
  ⟨⟨by decide, by decide, by decide, by decide, by decide, by decide,
    by decide, by decide⟩,
   c6_dash_survives_unflagged tStats tStatsDrop tStatsRes
     (.str "R", [.num 2, .num 1]) "AB" [.s "--", .s "3"] 0
     (by decide) (by decide) (by decide) (by decide) (by decide)
     (by decide) (by decide) (by decide)⟩

/-- Counterexample to C6 as stated: the `"--"` in the AB column (a row
whose third-column cell is numeric, not `"--"`) does not become a
missing value — it survives formatting as the literal string `"--"`,
and its column stays text. -/
theorem c6_dash_not_missing_counterexample :
    formatActiveStatsTable tStats = .ok tStatsRes ∧
    getCol tStatsRes (.str "AB") = some [.s "--", .s "3"] ∧
    PyVal.s "--" ≠ PyVal.nan ∧ PyVal.s "--" ≠ PyVal.num 0 := by
  decide

/-! Claim C8: the add/drop transaction family on a drop-only detail. -/

/-- The DETAIL text of the claim. -/
def tTransDetail : String := "PlayerA dropped PlayerB, was sent to Waivers"

/-- A one-row transaction frame with TYPE `Transaction\xa0\xa0Add/Drop`
and the drop-only DETAIL text. -/
def tTrans : PyDF :=
  ⟨[0],
   [(.str "TYPE", [.s addDropKey]),
    (.str "DETAIL", [.s tTransDetail])]⟩

/-- Claim C8, amended: the row is classified under the add+drop pattern
family — its TYPE matches the add/drop key and `findall` on the DETAIL
finds one 6-group tuple (the dropped branch) — but the row transformation
`lambda x: [x[0][:3], x[1][:3:-1]]` assumes every add/drop detail
contains two pattern matches, so on this single-match detail `x[1]`
raises `IndexError` and the formatter aborts: no TRANSACTION list is
produced. -/
theorem c8_add_drop_single_match :
    matchMask addDropKey (.s addDropKey) = .ok true ∧
    pyFindAllAddDrop tTransDetail =
      [["PlayerA", "PlayerB", "Waivers", "", "", ""]] ∧
    lamAddDrop (pyFindAllAddDrop tTransDetail) = .error .indexError ∧
    formatTransactionsCore tTrans = .error .indexError := by
  decide

/-- Counterexample to C8 as stated: on this input the transaction
formatter raises `IndexError` instead of producing a TRANSACTION list of
length at least 1 without error. -/
theorem c8_index_error_counterexample :
    formatTransactionsCore tTrans = .error .indexError := by
  decide
